import Mathlib

/-!
Shallow embedding of the ToxStatus node-probing program (src/main.go) and
proofs about its directory parsing, per-node probe phases, rescan merge and
snapshot publishing.

Conventions of the embedding:
* Go byte slices are `List Nat` (each element a byte value 0..255 where it
  comes off the wire); Go strings are Lean `String`, manipulated through
  their character lists so that everything kernel-evaluates.
* Network I/O is an oracle: each connection carries the outcome of the one
  `Write` (discarded by the program) and the one `Read` the code performs.
* Code whose result can make a Go function panic is embedded in
  `Except Unit`: `Except.error ()` marks a run-time panic or a returned Go
  `error`, as documented at each definition.
* Helpers of this repository that are not part of src/main.go (the crypto
  wrappers, `stripSpaces`, `contains`) are modelled from the spec and say so
  in their doc comments.
-/

set_option maxRecDepth 4000

deriving instance DecidableEq for Except

/-- Go `strings.Split` with a one-character separator: the pieces of the
list between occurrences of `sep`, empty pieces kept, `n+1` pieces for `n`
separators. -/
def splitOnChar (sep : Char) : List Char → List (List Char)
  | [] => [[]]
  | c :: rest =>
    let r := splitOnChar sep rest
    if c == sep then [] :: r
    else
      match r with
      | [] => [[c]]
      | h :: t => (c :: h) :: t

/-- Go `strings.TrimSpace`: drop whitespace from both ends. -/
def trimSpace (l : List Char) : List Char :=
  ((l.dropWhile Char.isWhitespace).reverse.dropWhile Char.isWhitespace).reverse

/-- Modelled from the spec: `stripSpaces` is a helper of this repository
defined outside src/main.go. The spec's parsing section treats directory
lines as whitespace-insensitive pipe-delimited text with whitespace-trimmed
fields, so the helper is modelled as removing every whitespace character
from the line before it is inspected. -/
def stripSpaces (l : List Char) : List Char :=
  l.filter (fun c => !c.isWhitespace)

/-- Value of a non-empty all-digit character list, `none` otherwise. -/
def digitsVal (l : List Char) : Option Int :=
  if l.isEmpty then none
  else
    l.foldl
      (fun acc c =>
        match acc with
        | none => none
        | some v => if c.isDigit then some (v * 10 + ((c.toNat : Int) - 48)) else none)
      (some 0)

/-- Go `strconv.Atoi`: an optional sign followed by at least one decimal
digit; anything else is an error. The 64-bit range check is omitted: every
value the program feeds it is a port number. -/
def go_Atoi (l : List Char) : Option Int :=
  match l with
  | '+' :: rest => digitsVal rest
  | '-' :: rest => (digitsVal rest).map (fun v => -v)
  | _ => digitsVal l

/-- Value of one hexadecimal digit character. -/
def hexDigitVal (c : Char) : Option Nat :=
  if 48 ≤ c.toNat ∧ c.toNat ≤ 57 then some (c.toNat - 48)
  else if 97 ≤ c.toNat ∧ c.toNat ≤ 102 then some (c.toNat - 87)
  else if 65 ≤ c.toNat ∧ c.toNat ≤ 70 then some (c.toNat - 55)
  else none

/-- Go `hex.DecodeString` on a character list: pairs of hex digits become
bytes; an odd length or a non-hex character is an error. No length other
than parity is checked. -/
def hexDecodeList : List Char → Option (List Nat)
  | [] => some []
  | [_] => none
  | c1 :: c2 :: rest =>
    match hexDigitVal c1, hexDigitVal c2, hexDecodeList rest with
    | some hi, some lo, some tail => some ((hi * 16 + lo) :: tail)
    | _, _, _ => none

/-- Go `hex.DecodeString` on a string. -/
def hexDecode (s : String) : Option (List Nat) :=
  hexDecodeList s.data

/-- Go `binary.BigEndian.Uint32` of four bytes. -/
def beUint32 (b1 b2 b3 b4 : Nat) : Nat :=
  ((b1 * 256 + b2) * 256 + b3) * 256 + b4

/-- Go `bytes.Trim(l, "\x00")`: zero bytes removed from BOTH ends. -/
def trimZeros (l : List Nat) : List Nat :=
  ((l.dropWhile (fun b => b == 0)).reverse.dropWhile (fun b => b == 0)).reverse

/-- Definition following the claim's words only, for comparison with the
source's `bytes.Trim`: zero bytes removed from the tail end alone. -/
def trimTrailingZerosSpec (l : List Nat) : List Nat :=
  (l.reverse.dropWhile (fun b => b == 0)).reverse

/-- Go `string(b)` for the byte lists the program builds (ASCII plus NUL):
each byte becomes the character of its code point. -/
def asciiString (l : List Nat) : String :=
  String.mk (l.map Char.ofNat)

/- Constants of src/main.go. -/

def getNodesPacketID : Nat := 2
def bootstrapInfoPacketID : Nat := 240
def bootstrapInfoPacketLength : Nat := 78
def tcpHandshakePacketLength : Nat := 128
def tcpHandshakeResponsePacketLength : Nat := 96
def maxMOTDLength : Nat := 256
def maxUDPPacketSize : Nat := 2048
def tcpPorts : List Int := [443, 3389, 33445]

/-- The `toxNode` struct of src/main.go, field for field. -/
structure toxNode where
  Ipv4Address : String
  Ipv6Address : String
  Port : Int
  TCPPorts : List Int
  PublicKey : String
  Maintainer : String
  Location : String
  Status : Bool
  Version : String
  MOTD : String
  LastPing : Int
  LastPingString : String
deriving DecidableEq

/-- `parseNode` of src/main.go. `Except.error ()` is a Go run-time panic:
the source evaluates `lineParts[3]` before checking `len(lineParts) == 8`,
so a qualifying line (one that starts with `|` once whitespace is stripped)
that splits into fewer than four parts indexes out of range. `Except.ok
none` is a silently skipped line, `Except.ok (some n)` a parsed record. -/
def parseNode (nodeString : String) : Except Unit (Option toxNode) :=
  match stripSpaces nodeString.data with
  | '|' :: rest =>
    let lineParts := splitOnChar '|' ('|' :: rest)
    if h : 3 < lineParts.length then
      match go_Atoi (trimSpace (lineParts.get ⟨3, h⟩)) with
      | some port =>
        if lineParts.length = 8 then
          let ipv6 := String.mk (trimSpace (lineParts.getD 2 []))
          Except.ok (some
            { Ipv4Address := String.mk (trimSpace (lineParts.getD 1 []))
              Ipv6Address := if ipv6 = "NONE" then "-" else ipv6
              Port := port
              TCPPorts := []
              PublicKey := String.mk (trimSpace (lineParts.getD 4 []))
              Maintainer := String.mk (trimSpace (lineParts.getD 5 []))
              Location := String.mk (trimSpace (lineParts.getD 6 []))
              Status := false
              Version := ""
              MOTD := ""
              LastPing := 0
              LastPingString := "Never" })
        else Except.ok none
      | none => Except.ok none
    else Except.error ()
  | _ => Except.ok none

/-- Modelled from the spec: the CryptoProvider capability interface (keypair,
shared-secret derivation, authenticated encryption, nonce/random bytes, plus
the ephemeral session key `NewCrypto` generates inside the TCP handshake).
The wrappers live outside src/main.go; only the values the probe code embeds
in outgoing packets come from here, and src/main.go never branches on them,
so randomness is modelled as fixed oracle values. -/
structure CryptoProvider where
  PublicKey : List Nat
  CreateSharedKey : List Nat → List Nat
  EncryptData : List Nat → List Nat → List Nat → List Nat
  NextNonce : List Nat
  NextBytes : Nat → List Nat
  TempPublicKey : List Nat

/-- One UDP connection as the probe code uses it: the outcome of its single
`Write` (count or error, discarded by the source) and of its single `Read`
(the datagram's bytes, or an error). -/
structure UDPConn where
  writeResult : Except Unit Nat
  readResult : Except Unit (List Nat)
deriving DecidableEq

/-- One TCP connection as `tryTCPHandshake` uses it: the outcome of its
single `Write` (discarded) and of its single `Read` (the byte count placed
into the 96-byte buffer, or an error). -/
structure TCPConn where
  writeResult : Except Unit Nat
  readResult : Except Unit Nat
deriving DecidableEq

/-- The network as one node's probe sees it: the two UDP dials of
`probeNode` (info phase, then discovery phase) and one TCP dial per
candidate port; each dial either fails or yields a connection oracle. -/
structure NodeNet where
  udpDial1 : Except Unit UDPConn
  udpDial2 : Except Unit UDPConn
  tcpDial : Int → Except Unit TCPConn

/-- Pad or truncate a byte list to length `n` with zero bytes, as copying
into a fresh Go buffer of length `n` does. -/
def padTo (n : Nat) (l : List Nat) : List Nat :=
  (l ++ List.replicate n 0).take n

/-- `getBootstrapInfo` of src/main.go (Phase A decode). The 78-byte request
is written with the result discarded; the reply lands in a zeroed buffer of
1+4+256 bytes (a longer datagram is truncated), the type byte is checked on
that buffer, the buffer is cut to the byte count read, a length under 5 is
an error, and on success the node gets Version (decimal rendering of the
big-endian bytes 1..4) and MOTD (the rest, zero bytes trimmed from both
ends by `bytes.Trim`). `Except.error ()` is the Go error return, in which
case the caller's node is untouched. -/
def getBootstrapInfo (node : toxNode) (conn : UDPConn) : Except Unit toxNode :=
  let payload := padTo bootstrapInfoPacketLength [bootstrapInfoPacketID]
  let _writeOutcome := (payload, conn.writeResult)
  match conn.readResult with
  | Except.error _ => Except.error ()
  | Except.ok reply =>
    let recv := reply.take (1 + 4 + maxMOTDLength)
    if recv.getD 0 0 ≠ bootstrapInfoPacketID then Except.error ()
    else if recv.length < 1 + 4 then Except.error ()
    else
      Except.ok { node with
        Version := toString (beUint32 (recv.getD 1 0) (recv.getD 2 0) (recv.getD 3 0) (recv.getD 4 0))
        MOTD := asciiString (trimZeros (recv.drop 5)) }

/-- `getNodes` of src/main.go (Phase B, the discovery query). The node's
public key must hex-decode (no length check beyond hex validity); the
encrypted request is built and written with the write result discarded; the
phase then succeeds exactly when the read returns without error, the reply's
bytes never inspected (the packet-id validation is commented out in the
source). -/
def getNodes (crypto : CryptoProvider) (node : toxNode) (conn : UDPConn) : Except Unit Unit :=
  match hexDecode node.PublicKey with
  | none => Except.error ()
  | some nodePublicKey =>
    let plain := crypto.PublicKey ++ crypto.NextBytes 8
    let nonce := crypto.NextNonce
    let sharedKey := crypto.CreateSharedKey nodePublicKey
    let encrypted := (crypto.EncryptData plain sharedKey nonce).drop 16
    let payload := [getNodesPacketID] ++ crypto.PublicKey ++ nonce ++ encrypted
    let _writeOutcome := (payload, conn.writeResult)
    match conn.readResult with
    | Except.error _ => Except.error ()
    | Except.ok _ => Except.ok ()

/-- The `tcpHandshakeResult` struct of src/main.go: the port probed and
`some ()` when the attempt ended in an error (`none` = success). -/
structure tcpHandshakeResult where
  Port : Int
  Error : Option Unit
deriving DecidableEq

/-- `tryTCPHandshake` of src/main.go (one Phase C port attempt). The node's
public key must hex-decode; the 128-byte handshake packet is written with
the write result discarded; the attempt succeeds exactly when the read
returns without error and its byte count is exactly the 96-byte response
length. -/
def tryTCPHandshake (crypto : CryptoProvider) (node : toxNode) (conn : TCPConn)
    (port : Int) : tcpHandshakeResult :=
  match hexDecode node.PublicKey with
  | none => { Port := port, Error := some () }
  | some nodePublicKey =>
    let nonce := crypto.NextNonce
    let baseNonce := crypto.NextNonce
    let plain := crypto.TempPublicKey ++ baseNonce
    let sharedKey := crypto.CreateSharedKey nodePublicKey
    let encrypted := (crypto.EncryptData plain sharedKey nonce).drop 16
    let payload := padTo tcpHandshakePacketLength (crypto.PublicKey ++ nonce ++ encrypted)
    let _writeOutcome := (payload, conn.writeResult)
    match conn.readResult with
    | Except.error _ => { Port := port, Error := some () }
    | Except.ok read =>
      if read = tcpHandshakeResponsePacketLength then { Port := port, Error := none }
      else { Port := port, Error := some () }

/-- Modelled from the spec: `contains`, a helper of this repository defined
outside src/main.go — the membership test on the well-known TCP port list
that deduplicates the candidate port set. -/
def contains (l : List Int) (x : Int) : Bool :=
  l.contains x

/-- One candidate port's Phase C attempt as the goroutine in `probeNode`
runs it: dial, and on success hand the connection to `tryTCPHandshake`; a
dial error is that port's failure result. -/
def tcpPortResult (crypto : CryptoProvider) (node : toxNode) (net : NodeNet)
    (p : Int) : tcpHandshakeResult :=
  match net.tcpDial p with
  | Except.error _ => { Port := p, Error := some () }
  | Except.ok conn => tryTCPHandshake crypto node conn p

/-- The Phase A step of `probeNode`: `err = getBootstrapInfo(node, conn)`
mutates the node on success and leaves it untouched on error (the error is
only printed). -/
def applyInfo (node : toxNode) (conn : UDPConn) : toxNode :=
  match getBootstrapInfo node conn with
  | Except.error _ => node
  | Except.ok n => n

/-- Result of `probeNode`, with flags for how far its control flow ran:
`reachedB` — past the Phase A section (the first dial succeeded, so the
probe was not aborted there); `calledGetNodes` — the second dial succeeded
and the discovery query ran; `reachedC` — the discovery query succeeded and
the TCP fan-out ran. -/
structure ProbeResult where
  node : toxNode
  reachedB : Bool
  calledGetNodes : Bool
  reachedC : Bool
deriving DecidableEq

/-- The Phase C fan-out of `probeNode` (lines 176-204 of src/main.go):
every candidate port (the well-known list plus the node's own port when not
already in it) is tried, the ports whose handshake succeeded are appended
(the source appends in channel-arrival order, which the scheduler picks;
the set is what is determined, and it is modelled in candidate order), and
regardless of the port outcomes LastPing is set to the current time and
Status to true. -/
def probeNodePhaseC (crypto : CryptoProvider) (node1 : toxNode) (net : NodeNet)
    (now : Int) : ProbeResult :=
  let ports := if contains tcpPorts node1.Port then tcpPorts else tcpPorts ++ [node1.Port]
  let results := ports.map (fun p => tcpPortResult crypto node1 net p)
  let opened := (results.filter (fun r => r.Error = none)).map (fun r => r.Port)
  ⟨{ node1 with
      TCPPorts := node1.TCPPorts ++ opened
      LastPing := now
      Status := true },
    true, true, true⟩

/-- The discovery query on its opened channel, gating Phase C: lines
169-174 of src/main.go. A `getNodes` error returns the node as it stands
(no TCP attempt); success goes on to the TCP fan-out. -/
def probeNodeDiscovery (crypto : CryptoProvider) (node1 : toxNode) (net : NodeNet)
    (now : Int) (conn2 : UDPConn) : ProbeResult :=
  match getNodes crypto node1 conn2 with
  | Except.error _ => ⟨node1, true, true, false⟩
  | Except.ok _ => probeNodePhaseC crypto node1 net now

/-- The second dial of `probeNode` (the Phase B channel): a dial error
returns the node as it stands, otherwise the discovery query runs. -/
def probeNodePhaseB (crypto : CryptoProvider) (node1 : toxNode) (net : NodeNet)
    (now : Int) : ProbeResult :=
  match net.udpDial2 with
  | Except.error _ => ⟨node1, true, false, false⟩
  | Except.ok conn2 => probeNodeDiscovery crypto node1 net now conn2

/-- `probeNode` of src/main.go, its sequential control flow split into the
steps above: a failed first UDP dial returns the node at once; otherwise
the info query runs (`applyInfo`, updating the node only on success) and
control continues with Phase B. -/
def probeNode (crypto : CryptoProvider) (node : toxNode) (net : NodeNet)
    (now : Int) : ProbeResult :=
  match net.udpDial1 with
  | Except.error _ => ⟨node, false, false, false⟩
  | Except.ok conn1 => probeNodePhaseB crypto (applyInfo node conn1) net now

/-- `getOldNode` of src/main.go: first record of the previous published list
with the given public key. -/
def getOldNode (nodesList : List toxNode) (publicKey : String) : Option toxNode :=
  nodesList.find? (fun n => n.PublicKey == publicKey)

/-- The merge step inside `parseNodes` of src/main.go: when the previous
published list has a record with the same public key, the fresh record takes
over that record's LastPing and LastPingString; every other field keeps the
value `parseNode` built from the line. -/
def mergeOldPing (nodesList : List toxNode) (node : toxNode) : toxNode :=
  match getOldNode nodesList node.PublicKey with
  | some oldNode => { node with LastPing := oldNode.LastPing, LastPingString := oldNode.LastPingString }
  | none => node

/-- The pure part of `parseNodes` of src/main.go: the fetched directory text
split on newlines, each line parsed, skipped lines dropped, parsed records
merged with the previous list's ping history, source order kept.
`Except.error ()` is the run-time panic `parseNode` can raise. -/
def parseNodesContent (nodesList : List toxNode) (content : String) :
    Except Unit (List toxNode) :=
  ((splitOnChar '\n' content.data).map String.mk).foldlM
    (fun acc line => do
      match (← parseNode line) with
      | none => pure acc
      | some node => pure (acc ++ [mergeOldPing nodesList node]))
    []

/-- The two process-wide globals of src/main.go that make up the published
state: `nodesList` and `lastScan`. -/
structure GlobalState where
  nodesList : List toxNode
  lastScan : Int
deriving DecidableEq

/-- Line 144 of src/main.go: the assignment `nodesList = nodes`, the first
half of the publish. -/
def setNodesList (s : GlobalState) (nodes : List toxNode) : GlobalState :=
  { s with nodesList := nodes }

/-- Line 145 of src/main.go: the assignment `lastScan = time.Now().Unix()`,
the second half of the publish. -/
def setLastScan (s : GlobalState) (t : Int) : GlobalState :=
  { s with lastScan := t }

/-- What `handleJSONRequest` of src/main.go reads from the globals to build
its response: the scan timestamp and the node list. -/
def readStatus (s : GlobalState) : Int × List toxNode :=
  (s.lastScan, s.nodesList)

/-- One iteration of `probeLoop` of src/main.go. `fetch` is the outcome of
the HTTP fetch and body read inside `parseNodes` (its only Go error
sources); on a fetch error the iteration only logs and leaves both globals
untouched. Otherwise the directory is parsed and merged (`Except.error ()`
propagates the parse panic, which kills the scanning goroutine and with it
the process), every node is probed (`nets` gives each node's network
oracle), and the result is published by the two global assignments in
source order: node list first, timestamp second. -/
def probeLoopIter (crypto : CryptoProvider) (s : GlobalState)
    (fetch : Except Unit String) (nets : toxNode → NodeNet) (now : Int) :
    Except Unit GlobalState :=
  match fetch with
  | Except.error _ => Except.ok s
  | Except.ok content =>
    match parseNodesContent s.nodesList content with
    | Except.error _ => Except.error ()
    | Except.ok nodes =>
      let probed := nodes.map (fun n => (probeNode crypto n (nets n) now).node)
      Except.ok (setLastScan (setNodesList s probed) now)

/- Concrete fixtures used by the counterexamples and witnesses. -/

/-- A trivial concrete CryptoProvider for evaluating the model. -/
def cryptoT : CryptoProvider :=
  { PublicKey := List.replicate 32 0
    CreateSharedKey := fun _ => List.replicate 32 0
    EncryptData := fun plain _ _ => List.replicate 16 0 ++ plain
    NextNonce := List.replicate 24 0
    NextBytes := fun n => List.replicate n 0
    TempPublicKey := List.replicate 32 0 }

/-- A UDP connection whose write succeeded and whose read returned the
single byte 4 (not a bootstrap-info reply, but an error-free read). -/
def udpConnOk : UDPConn :=
  { writeResult := Except.ok 78, readResult := Except.ok [4] }

/-- A TCP connection whose read returned exactly the 96 expected bytes. -/
def tcpConnOk : TCPConn :=
  { writeResult := Except.ok 128, readResult := Except.ok 96 }

/-- A UDP connection whose info reply has version 7 and MOTD bytes
"hi" followed by two zero bytes — the reply of the claim's example. -/
def connHi : UDPConn :=
  { writeResult := Except.ok 78, readResult := Except.ok [240, 0, 0, 0, 7, 104, 105, 0, 0] }

/-- A UDP connection whose info reply carries a LEADING zero byte in the
MOTD section: bytes [240, 0,0,0,7, 0, 'h', 'i']. -/
def connInfoLead : UDPConn :=
  { writeResult := Except.ok 78, readResult := Except.ok [240, 0, 0, 0, 7, 0, 104, 105] }

/-- A directory node record with a well-formed 64-hex-digit public key, as
`parseNode` builds one. -/
def nodeGood : toxNode :=
  { Ipv4Address := "1.2.3.4", Ipv6Address := "-", Port := 33445, TCPPorts := []
    PublicKey := "0000000000000000000000000000000000000000000000000000000000000000"
    Maintainer := "m", Location := "l", Status := false, Version := "", MOTD := ""
    LastPing := 0, LastPingString := "Never" }

/-- A node whose public key is valid hex but decodes to only 2 bytes. -/
def nodeAbcd : toxNode :=
  { nodeGood with PublicKey := "abcd" }

/-- A node whose public key is not valid hex at all. -/
def nodeZZ : toxNode :=
  { nodeGood with PublicKey := "zz" }

/-- A network where every dial and every read succeeds (TCP reads return
the expected 96 bytes). -/
def netAllOk : NodeNet :=
  { udpDial1 := Except.ok udpConnOk
    udpDial2 := Except.ok udpConnOk
    tcpDial := fun _ => Except.ok tcpConnOk }

/-- A network whose first UDP dial (the Phase A channel) fails and where
everything afterwards would succeed. -/
def netDial1Bad : NodeNet :=
  { netAllOk with udpDial1 := Except.error () }

/-- A network where both UDP phases succeed but every TCP dial fails. -/
def netTCPFail : NodeNet :=
  { netAllOk with tcpDial := fun _ => Except.error () }

/-- A UDP connection whose read fails. -/
def udpConnReadFail : UDPConn :=
  { writeResult := Except.ok 40, readResult := Except.error () }

/-- A UDP connection whose info reply's first byte is 0, not 240. -/
def connType0 : UDPConn :=
  { writeResult := Except.ok 78, readResult := Except.ok [0] }

/-- A network whose Phase A channel opens but answers with a wrong type
byte, and where everything afterwards succeeds. -/
def netInfoBad : NodeNet :=
  { netAllOk with udpDial1 := Except.ok connType0 }

/-- A network where both dials succeed but the discovery read fails. -/
def netBReadFail : NodeNet :=
  { netAllOk with udpDial2 := Except.ok udpConnReadFail }

/-- A previously published record with public key "KEYK" and ping history
(timestamp 100, rendering "ago"). -/
def oldK100 : toxNode :=
  { nodeGood with PublicKey := "KEYK", LastPing := 100, LastPingString := "ago" }

/-- A directory line for public key "KEYK". -/
def lineK : String := "|1.2.3.4|NONE|33445|KEYK|m|l|x"

/-- The record `parseNode` builds from `lineK`. -/
def nodeKEYK : toxNode :=
  { Ipv4Address := "1.2.3.4", Ipv6Address := "-", Port := 33445, TCPPorts := []
    PublicKey := "KEYK", Maintainer := "m", Location := "l", Status := false
    Version := "", MOTD := "", LastPing := 0, LastPingString := "Never" }

/- Helper lemmas shared by the claim theorems. -/

/-- A successful info decode changes only Version and MOTD. -/
theorem getBootstrapInfo_ok_frame (node : toxNode) (conn : UDPConn) (n : toxNode)
    (h : getBootstrapInfo node conn = Except.ok n) :
    n.Status = node.Status ∧ n.PublicKey = node.PublicKey ∧ n.Port = node.Port ∧
    n.TCPPorts = node.TCPPorts ∧ n.LastPing = node.LastPing ∧
    n.LastPingString = node.LastPingString := by
  unfold getBootstrapInfo at h
  cases hr : conn.readResult with
  | error e => rw [hr] at h; simp at h
  | ok reply =>
    rw [hr] at h
    simp only at h
    split at h
    · simp at h
    · split at h
      · simp at h
      · simp only [Except.ok.injEq] at h
        subst h
        simp

/-- The Phase A step never changes the fields the later phases read. -/
theorem applyInfo_frame (node : toxNode) (conn : UDPConn) :
    (applyInfo node conn).Status = node.Status ∧
    (applyInfo node conn).PublicKey = node.PublicKey ∧
    (applyInfo node conn).Port = node.Port ∧
    (applyInfo node conn).TCPPorts = node.TCPPorts ∧
    (applyInfo node conn).LastPing = node.LastPing ∧
    (applyInfo node conn).LastPingString = node.LastPingString := by
  unfold applyInfo
  cases hb : getBootstrapInfo node conn with
  | error e => exact ⟨rfl, rfl, rfl, rfl, rfl, rfl⟩
  | ok n => exact getBootstrapInfo_ok_frame node conn n hb

/-- A failed info decode leaves the node exactly as it was. -/
theorem applyInfo_of_fail (node : toxNode) (conn : UDPConn)
    (h : getBootstrapInfo node conn = Except.error ()) :
    applyInfo node conn = node := by
  unfold applyInfo
  rw [h]

/-- The discovery query fails whenever its read fails. -/
theorem getNodes_read_fail (crypto : CryptoProvider) (node : toxNode) (conn : UDPConn)
    (h : conn.readResult = Except.error ()) :
    getNodes crypto node conn = Except.error () := by
  unfold getNodes
  cases hd : hexDecode node.PublicKey with
  | none => rfl
  | some pk => simp only [hd, h]

/-- With a decodable key, the discovery query succeeds on any error-free
read, whatever its bytes. -/
theorem getNodes_read_ok (crypto : CryptoProvider) (node : toxNode) (conn : UDPConn)
    (pk : List Nat) (hd : hexDecode node.PublicKey = some pk) (b : List Nat)
    (h : conn.readResult = Except.ok b) :
    getNodes crypto node conn = Except.ok () := by
  unfold getNodes
  simp only [hd, h]

/-- Control-flow reduction: a failed first dial aborts the probe. -/
theorem probeNode_dial1_fail (crypto : CryptoProvider) (node : toxNode) (net : NodeNet)
    (now : Int) (h : net.udpDial1 = Except.error ()) :
    probeNode crypto node net now = ⟨node, false, false, false⟩ := by
  unfold probeNode
  rw [h]

/-- Control-flow reduction: a successful first dial runs the info step and
continues with Phase B. -/
theorem probeNode_dial1_ok (crypto : CryptoProvider) (node : toxNode) (net : NodeNet)
    (now : Int) (conn1 : UDPConn) (h : net.udpDial1 = Except.ok conn1) :
    probeNode crypto node net now = probeNodePhaseB crypto (applyInfo node conn1) net now := by
  unfold probeNode
  rw [h]

/-- Control-flow reduction: a failed second dial returns before discovery. -/
theorem phaseB_dial2_fail (crypto : CryptoProvider) (node1 : toxNode) (net : NodeNet)
    (now : Int) (h : net.udpDial2 = Except.error ()) :
    probeNodePhaseB crypto node1 net now = ⟨node1, true, false, false⟩ := by
  unfold probeNodePhaseB
  rw [h]

/-- Control-flow reduction: a successful second dial runs the discovery
query on the new channel. -/
theorem phaseB_dial2_ok (crypto : CryptoProvider) (node1 : toxNode) (net : NodeNet)
    (now : Int) (conn2 : UDPConn) (h : net.udpDial2 = Except.ok conn2) :
    probeNodePhaseB crypto node1 net now = probeNodeDiscovery crypto node1 net now conn2 := by
  unfold probeNodePhaseB
  rw [h]

/-- Control-flow reduction: a failed discovery query skips Phase C. -/
theorem discovery_fail (crypto : CryptoProvider) (node1 : toxNode) (net : NodeNet)
    (now : Int) (conn2 : UDPConn) (u : Unit)
    (h : getNodes crypto node1 conn2 = Except.error u) :
    probeNodeDiscovery crypto node1 net now conn2 = ⟨node1, true, true, false⟩ := by
  unfold probeNodeDiscovery
  rw [h]

/-- Control-flow reduction: a successful discovery query runs Phase C. -/
theorem discovery_ok (crypto : CryptoProvider) (node1 : toxNode) (net : NodeNet)
    (now : Int) (conn2 : UDPConn) (u : Unit)
    (h : getNodes crypto node1 conn2 = Except.ok u) :
    probeNodeDiscovery crypto node1 net now conn2 = probeNodePhaseC crypto node1 net now := by
  unfold probeNodeDiscovery
  rw [h]

/- The claim theorems, counterexamples and witnesses. -/

/-- Claim C1 (code_bug): the claim says a line that starts with "|" but
splits into fewer than 8 fields is silently skipped, never a crash; the
source evaluates `lineParts[3]` before checking the field count, so the
line "|" (which splits into only 2 fields) panics with an index out of
range, modelled as `Except.error ()`. -/
theorem C1_short_pipe_line_panics : parseNode "|" = Except.error () := by decide

/-- Claim C2 counterexample: with the previous state (empty list, scan 0), a
reader that runs between the two publish assignments of lines 144-145 of
src/main.go observes the new node list paired with the old timestamp — a
status that is neither the fully-old nor the fully-new published state. -/
theorem C2_reader_sees_mixture :
    readStatus (setNodesList ⟨[], 0⟩ [nodeGood]) ≠ readStatus (⟨[], 0⟩ : GlobalState) ∧
    readStatus (setNodesList ⟨[], 0⟩ [nodeGood]) ≠
      readStatus (setLastScan (setNodesList ⟨[], 0⟩ [nodeGood]) 7) := by
  decide

/-- Claim C2 amended: the publish is two separate unsynchronized global
assignments — node list first, then timestamp — so a reader between them
observes the new node list with the previous scan timestamp; before the
first assignment it observes the old snapshot and after the second the new
one (the list itself is always a completely built list, never partial). -/
theorem C2_publish_in_two_steps :
    ∀ (s : GlobalState) (nodes : List toxNode) (t : Int),
      readStatus s = (s.lastScan, s.nodesList) ∧
      readStatus (setNodesList s nodes) = (s.lastScan, nodes) ∧
      readStatus (setLastScan (setNodesList s nodes) t) = (t, nodes) := by
  intro s nodes t
  exact ⟨rfl, rfl, rfl⟩

/-- Claim C3 counterexample: the node whose public key is "abcd" decodes to
2 bytes, not 32, yet the discovery phase does not fail — with every read
error-free the probe reaches Phase C and ends with status true, against the
claim's "phases fail and status=false". -/
theorem C3_short_key_not_rejected :
    hexDecode nodeAbcd.PublicKey = some [171, 205] ∧
    ([171, 205] : List Nat).length ≠ 32 ∧
    getNodes cryptoT nodeAbcd udpConnOk = Except.ok () ∧
    (probeNode cryptoT nodeAbcd netAllOk 5).node.Status = true := by decide

/-- Claim C3 amended: for every node whose public key fails hex decoding
(odd length or a non-hex digit — the only key validation the source has),
the discovery query and every TCP handshake attempt fail at the decode
step, the probe never reaches Phase C, and the node is returned with its
status unchanged (false as parsed); a key that is valid hex but decodes to
a length other than 32 bytes is not rejected. -/
theorem C3_invalid_hex_key (crypto : CryptoProvider) (node : toxNode)
    (h : hexDecode node.PublicKey = none) :
    (∀ conn : UDPConn, getNodes crypto node conn = Except.error ()) ∧
    (∀ (conn : TCPConn) (p : Int),
      tryTCPHandshake crypto node conn p = { Port := p, Error := some () }) ∧
    (∀ (net : NodeNet) (now : Int),
      (probeNode crypto node net now).reachedC = false ∧
      (probeNode crypto node net now).node.Status = node.Status) := by
  refine ⟨?_, ?_, ?_⟩
  · intro conn
    unfold getNodes
    rw [h]
  · intro conn p
    unfold tryTCPHandshake
    rw [h]
  · intro net now
    cases h1 : net.udpDial1 with
    | error e =>
      rw [probeNode_dial1_fail crypto node net now h1]
      exact ⟨rfl, rfl⟩
    | ok conn1 =>
      rw [probeNode_dial1_ok crypto node net now conn1 h1]
      have hfr := applyInfo_frame node conn1
      have hkey : hexDecode (applyInfo node conn1).PublicKey = none := by
        rw [hfr.2.1, h]
      cases h2 : net.udpDial2 with
      | error e =>
        rw [phaseB_dial2_fail crypto (applyInfo node conn1) net now h2]
        exact ⟨rfl, hfr.1⟩
      | ok conn2 =>
        rw [phaseB_dial2_ok crypto (applyInfo node conn1) net now conn2 h2]
        have hgn : getNodes crypto (applyInfo node conn1) conn2 = Except.error () := by
          unfold getNodes
          rw [hkey]
        rw [discovery_fail crypto (applyInfo node conn1) net now conn2 () hgn]
        exact ⟨rfl, hfr.1⟩

/-- Witness for C3_invalid_hex_key at the node whose key is "zz". -/
theorem C3_invalid_hex_key_witness :
    hexDecode nodeZZ.PublicKey = none ∧
    ((∀ conn : UDPConn, getNodes cryptoT nodeZZ conn = Except.error ()) ∧
      (∀ (conn : TCPConn) (p : Int),
        tryTCPHandshake cryptoT nodeZZ conn p = { Port := p, Error := some () }) ∧
      (∀ (net : NodeNet) (now : Int),
        (probeNode cryptoT nodeZZ net now).reachedC = false ∧
        (probeNode cryptoT nodeZZ net now).node.Status = nodeZZ.Status)) ∧
    (probeNode cryptoT nodeZZ netAllOk 5).node.Status = false :=
  ⟨by decide, C3_invalid_hex_key cryptoT nodeZZ (by decide), by decide⟩

/-- Claim C4 counterexample: when opening Phase A's UDP channel fails (the
first dial), `probeNode` returns the node at once — Phase B is never
reached, no TCP attempt is made and the node comes back untouched — against
the claim that a Phase A failure (its channel open included) still lets
Phases B and C run. -/
theorem C4_dial1_failure_is_fatal :
    netDial1Bad.udpDial1 = Except.error () ∧
    probeNode cryptoT nodeGood netDial1Bad 5 = ⟨nodeGood, false, false, false⟩ := by
  decide

/-- Claim C4 amended: a failure of the info query itself — after its channel
opened — is non-fatal: Version and MOTD stay as they were and the probe goes
on to Phase B; when Phase B's dial and query then succeed, Phase C runs and
status becomes true. But a failure to open the Phase A channel aborts the
whole probe: Phases B and C are not attempted. -/
theorem C4_info_failure_nonfatal (crypto : CryptoProvider) (node : toxNode)
    (net : NodeNet) (now : Int) (conn1 : UDPConn)
    (h1 : net.udpDial1 = Except.ok conn1)
    (hinfo : getBootstrapInfo node conn1 = Except.error ()) :
    (probeNode crypto node net now).node.Version = node.Version ∧
    (probeNode crypto node net now).node.MOTD = node.MOTD ∧
    (probeNode crypto node net now).reachedB = true ∧
    (∀ conn2 : UDPConn, net.udpDial2 = Except.ok conn2 →
      getNodes crypto node conn2 = Except.ok () →
      (probeNode crypto node net now).reachedC = true ∧
      (probeNode crypto node net now).node.Status = true) := by
  have happ : applyInfo node conn1 = node := applyInfo_of_fail node conn1 hinfo
  rw [probeNode_dial1_ok crypto node net now conn1 h1, happ]
  cases h2 : net.udpDial2 with
  | error e =>
    rw [phaseB_dial2_fail crypto node net now h2]
    refine ⟨rfl, rfl, rfl, ?_⟩
    intro conn2 hc
    simp at hc
  | ok conn2 =>
    rw [phaseB_dial2_ok crypto node net now conn2 h2]
    cases hgn : getNodes crypto node conn2 with
    | error u =>
      rw [discovery_fail crypto node net now conn2 u hgn]
      refine ⟨rfl, rfl, rfl, ?_⟩
      intro conn2x hcx hok
      simp only [Except.ok.injEq] at hcx
      subst hcx
      rw [hok] at hgn
      simp at hgn
    | ok u =>
      rw [discovery_ok crypto node net now conn2 u hgn]
      refine ⟨rfl, rfl, rfl, ?_⟩
      intro conn2x hcx hok
      exact ⟨rfl, rfl⟩

/-- Witness for C4_info_failure_nonfatal: an info reply with the wrong type
byte fails Phase A, yet the probe continues and ends with status true. -/
theorem C4_info_failure_nonfatal_witness :
    getBootstrapInfo nodeGood connType0 = Except.error () ∧
    ((probeNode cryptoT nodeGood netInfoBad 5).node.Version = nodeGood.Version ∧
      (probeNode cryptoT nodeGood netInfoBad 5).node.MOTD = nodeGood.MOTD ∧
      (probeNode cryptoT nodeGood netInfoBad 5).reachedB = true ∧
      (∀ conn2 : UDPConn, netInfoBad.udpDial2 = Except.ok conn2 →
        getNodes cryptoT nodeGood conn2 = Except.ok () →
        (probeNode cryptoT nodeGood netInfoBad 5).reachedC = true ∧
        (probeNode cryptoT nodeGood netInfoBad 5).node.Status = true)) :=
  ⟨by decide, C4_info_failure_nonfatal cryptoT nodeGood netInfoBad 5 connType0 rfl (by decide)⟩

/-- Claim C5: once the discovery request can be built (the key decodes),
Phase B succeeds exactly on an error-free read — any bytes at all — and
fails on a read error; and when it fails, the probe never reaches the TCP
phase and the node's status is left unchanged (false as parsed). -/
theorem C5_discovery_success_criterion (crypto : CryptoProvider) (node : toxNode)
    (pk : List Nat) (hd : hexDecode node.PublicKey = some pk) :
    (∀ (conn : UDPConn) (b : List Nat), conn.readResult = Except.ok b →
      getNodes crypto node conn = Except.ok ()) ∧
    (∀ conn : UDPConn, conn.readResult = Except.error () →
      getNodes crypto node conn = Except.error ()) ∧
    (∀ (net : NodeNet) (now : Int) (conn1 conn2 : UDPConn),
      net.udpDial1 = Except.ok conn1 → net.udpDial2 = Except.ok conn2 →
      conn2.readResult = Except.error () →
      (probeNode crypto node net now).reachedC = false ∧
      (probeNode crypto node net now).node.Status = node.Status) := by
  refine ⟨?_, ?_, ?_⟩
  · intro conn b h
    exact getNodes_read_ok crypto node conn pk hd b h
  · intro conn h
    exact getNodes_read_fail crypto node conn h
  · intro net now conn1 conn2 h1 h2 hre
    have hfr := applyInfo_frame node conn1
    rw [probeNode_dial1_ok crypto node net now conn1 h1,
      phaseB_dial2_ok crypto (applyInfo node conn1) net now conn2 h2,
      discovery_fail crypto (applyInfo node conn1) net now conn2 ()
        (getNodes_read_fail crypto (applyInfo node conn1) conn2 hre)]
    exact ⟨rfl, hfr.1⟩

/-- Witness for C5_discovery_success_criterion at the all-zero 32-byte key. -/
theorem C5_discovery_success_criterion_witness :
    hexDecode nodeGood.PublicKey = some (List.replicate 32 0) ∧
    ((∀ (conn : UDPConn) (b : List Nat), conn.readResult = Except.ok b →
        getNodes cryptoT nodeGood conn = Except.ok ()) ∧
      (∀ conn : UDPConn, conn.readResult = Except.error () →
        getNodes cryptoT nodeGood conn = Except.error ()) ∧
      (∀ (net : NodeNet) (now : Int) (conn1 conn2 : UDPConn),
        net.udpDial1 = Except.ok conn1 → net.udpDial2 = Except.ok conn2 →
        conn2.readResult = Except.error () →
        (probeNode cryptoT nodeGood net now).reachedC = false ∧
        (probeNode cryptoT nodeGood net now).node.Status = nodeGood.Status)) ∧
    (probeNode cryptoT nodeGood netBReadFail 5).reachedC = false :=
  ⟨by decide, C5_discovery_success_criterion cryptoT nodeGood (List.replicate 32 0) (by decide),
    by decide⟩

/-- Claim C6 counterexample: on the reply [240, 0,0,0,7, 0,'h','i'] the code
produces MOTD "hi" — `bytes.Trim` strips the LEADING zero byte too — while
the claim's trailing-only trim would keep it, yielding a 3-character MOTD. -/
theorem C6_leading_zeros_also_trimmed :
    (getBootstrapInfo nodeGood connInfoLead).map (fun n => n.MOTD) = Except.ok "hi" ∧
    asciiString (trimTrailingZerosSpec [0, 104, 105]) = String.mk [Char.ofNat 0, 'h', 'i'] ∧
    ("hi" : String) ≠ String.mk [Char.ofNat 0, 'h', 'i'] := by decide

/-- Claim C6 amended: an info reply whose first byte is 240 and whose
length is between 5 and the 261-byte read buffer sets the version to the
decimal rendering of bytes 1-4 read big-endian, and the MOTD to the
remaining bytes with zero bytes trimmed from BOTH ends (the source uses
`bytes.Trim`, which also strips leading zero bytes, not only trailing
ones); the claim's example [240, 0,0,0,7, 'h','i', 0,0] still yields
version "7" and MOTD "hi". -/
theorem C6_info_decode (node : toxNode) (conn : UDPConn) (reply : List Nat)
    (hread : conn.readResult = Except.ok reply)
    (h0 : reply.getD 0 0 = bootstrapInfoPacketID)
    (h5 : 5 ≤ reply.length)
    (hcap : reply.length ≤ 1 + 4 + maxMOTDLength) :
    getBootstrapInfo node conn = Except.ok { node with
      Version := toString
        (beUint32 (reply.getD 1 0) (reply.getD 2 0) (reply.getD 3 0) (reply.getD 4 0))
      MOTD := asciiString (trimZeros (reply.drop 5)) } := by
  unfold getBootstrapInfo
  rw [hread]
  simp only [List.take_of_length_le hcap]
  rw [if_neg (fun hne => hne h0), if_neg (by omega)]

/-- Witness for C6_info_decode at the claim's own example reply. -/
theorem C6_info_decode_witness :
    getBootstrapInfo nodeGood connHi = Except.ok { nodeGood with
      Version := toString (beUint32 (([240, 0, 0, 0, 7, 104, 105, 0, 0] : List Nat).getD 1 0)
        (([240, 0, 0, 0, 7, 104, 105, 0, 0] : List Nat).getD 2 0)
        (([240, 0, 0, 0, 7, 104, 105, 0, 0] : List Nat).getD 3 0)
        (([240, 0, 0, 0, 7, 104, 105, 0, 0] : List Nat).getD 4 0))
      MOTD := asciiString (trimZeros (([240, 0, 0, 0, 7, 104, 105, 0, 0] : List Nat).drop 5)) } ∧
    getBootstrapInfo nodeGood connHi =
      Except.ok { nodeGood with Version := "7", MOTD := "hi" } :=
  ⟨C6_info_decode nodeGood connHi [240, 0, 0, 0, 7, 104, 105, 0, 0] rfl (by decide)
      (by decide) (by decide),
    by decide⟩

/-- Claim C7: any probe that reaches Phase C — whatever its TCP port
results, even if every single port attempt failed — ends with the node's
LastPing set to the current time and its status flag true. -/
theorem C7_phaseC_sets_status (crypto : CryptoProvider) (node : toxNode)
    (net : NodeNet) (now : Int)
    (h : (probeNode crypto node net now).reachedC = true) :
    (probeNode crypto node net now).node.Status = true ∧
    (probeNode crypto node net now).node.LastPing = now := by
  cases h1 : net.udpDial1 with
  | error e =>
    rw [probeNode_dial1_fail crypto node net now h1] at h
    simp at h
  | ok conn1 =>
    rw [probeNode_dial1_ok crypto node net now conn1 h1] at h ⊢
    cases h2 : net.udpDial2 with
    | error e =>
      rw [phaseB_dial2_fail crypto (applyInfo node conn1) net now h2] at h
      simp at h
    | ok conn2 =>
      rw [phaseB_dial2_ok crypto (applyInfo node conn1) net now conn2 h2] at h ⊢
      cases hgn : getNodes crypto (applyInfo node conn1) conn2 with
      | error u =>
        rw [discovery_fail crypto (applyInfo node conn1) net now conn2 u hgn] at h
        simp at h
      | ok u =>
        rw [discovery_ok crypto (applyInfo node conn1) net now conn2 u hgn]
        exact ⟨rfl, rfl⟩

/-- Witness for C7_phaseC_sets_status on a network where every TCP port
attempt fails: the open-port set stays empty, yet status is true and
LastPing is the probe time. -/
theorem C7_phaseC_sets_status_witness :
    (probeNode cryptoT nodeGood netTCPFail 5).reachedC = true ∧
    ((probeNode cryptoT nodeGood netTCPFail 5).node.Status = true ∧
      (probeNode cryptoT nodeGood netTCPFail 5).node.LastPing = 5) ∧
    (probeNode cryptoT nodeGood netTCPFail 5).node.TCPPorts = [] :=
  ⟨by decide, C7_phaseC_sets_status cryptoT nodeGood netTCPFail 5 (by decide), by decide⟩

/-- Claim C8: a record parsed from a directory line starts with LastPing 0
and rendering "Never"; the rescan merge then copies LastPing and
LastPingString from the first previous record with the same public key when
one exists and otherwise leaves the fresh values, touching no other
field. -/
theorem C8_rescan_merge (old : List toxNode) (line : String) (n : toxNode)
    (h : parseNode line = Except.ok (some n)) :
    n.LastPing = 0 ∧ n.LastPingString = "Never" ∧
    (∀ o : toxNode, getOldNode old n.PublicKey = some o →
      mergeOldPing old n =
        { n with LastPing := o.LastPing, LastPingString := o.LastPingString }) ∧
    (getOldNode old n.PublicKey = none → mergeOldPing old n = n) := by
  refine ⟨?_, ?_, ?_, ?_⟩
  · unfold parseNode at h
    split at h
    · dsimp only [] at h
      split at h
      · split at h
        · split at h
          · simp only [Except.ok.injEq, Option.some.injEq] at h
            subst h
            rfl
          · simp at h
        · simp at h
      · simp at h
    · simp at h
  · unfold parseNode at h
    split at h
    · dsimp only [] at h
      split at h
      · split at h
        · split at h
          · simp only [Except.ok.injEq, Option.some.injEq] at h
            subst h
            rfl
          · simp at h
        · simp at h
      · simp at h
    · simp at h
  · intro o ho
    unfold mergeOldPing
    rw [ho]
  · intro hnone
    unfold mergeOldPing
    rw [hnone]

/-- Witness for C8_rescan_merge: the line for key "KEYK" parses to the fresh
record (LastPing 0, "Never"); merged against a previous list holding KEYK
with timestamp 100 it keeps 100, and merged against an empty previous list
it stays fresh. -/
theorem C8_rescan_merge_witness :
    parseNode lineK = Except.ok (some nodeKEYK) ∧
    (nodeKEYK.LastPing = 0 ∧ nodeKEYK.LastPingString = "Never" ∧
      (∀ o : toxNode, getOldNode [oldK100] nodeKEYK.PublicKey = some o →
        mergeOldPing [oldK100] nodeKEYK =
          { nodeKEYK with LastPing := o.LastPing, LastPingString := o.LastPingString }) ∧
      (getOldNode [oldK100] nodeKEYK.PublicKey = none →
        mergeOldPing [oldK100] nodeKEYK = nodeKEYK)) ∧
    mergeOldPing [oldK100] nodeKEYK =
      { nodeKEYK with LastPing := 100, LastPingString := "ago" } ∧
    mergeOldPing [] nodeKEYK = nodeKEYK :=
  ⟨by decide, C8_rescan_merge [oldK100] lineK nodeKEYK (by decide), by decide, by decide⟩

/-- Claim C9: when the directory fetch (or body read) fails, the scan
iteration publishes nothing: both globals — and hence the status a reader
sees — are exactly what they were before the failed cycle. -/
theorem C9_failed_fetch_keeps_state :
    ∀ (crypto : CryptoProvider) (s : GlobalState) (nets : toxNode → NodeNet) (now : Int),
      probeLoopIter crypto s (Except.error ()) nets now = Except.ok s ∧
      (probeLoopIter crypto s (Except.error ()) nets now).map readStatus =
        Except.ok (readStatus s) := by
  intro crypto s nets now
  exact ⟨rfl, rfl⟩

/-- Claim C10 counterexample: the claim says a phase can only fail through a
connection-open error, a read error, or validation of the bytes read; the
discovery phase also fails when the node's public key does not hex-decode,
here on a connection whose read succeeded (and whose open, being given,
succeeded). -/
theorem C10_decode_is_a_failure_mode :
    udpConnOk.readResult = Except.ok [4] ∧
    getNodes cryptoT nodeZZ udpConnOk = Except.error () := by decide

/-- Claim C10 amended: in every phase the write result is discarded — the
phase's outcome is unchanged under any change of the write outcome — and a
phase fails exactly through a connection-open error (modelled upstream), a
read error, validation of the read bytes, or (discovery and handshake)
failure to hex-decode the node's public key. -/
theorem C10_write_result_discarded :
    (∀ (node : toxNode) (w v : Except Unit Nat) (r : Except Unit (List Nat)),
      getBootstrapInfo node ⟨w, r⟩ = getBootstrapInfo node ⟨v, r⟩) ∧
    (∀ (crypto : CryptoProvider) (node : toxNode) (w v : Except Unit Nat)
        (r : Except Unit (List Nat)),
      getNodes crypto node ⟨w, r⟩ = getNodes crypto node ⟨v, r⟩) ∧
    (∀ (crypto : CryptoProvider) (node : toxNode) (w v : Except Unit Nat)
        (r : Except Unit Nat) (p : Int),
      tryTCPHandshake crypto node ⟨w, r⟩ p = tryTCPHandshake crypto node ⟨v, r⟩ p) ∧
    (∀ (crypto : CryptoProvider) (node : toxNode) (conn : UDPConn),
      getNodes crypto node conn = Except.error () ↔
        (hexDecode node.PublicKey = none ∨ conn.readResult = Except.error ())) ∧
    (∀ (crypto : CryptoProvider) (node : toxNode) (conn : TCPConn) (p : Int),
      (tryTCPHandshake crypto node conn p).Error = none ↔
        ((∃ pk, hexDecode node.PublicKey = some pk) ∧
          conn.readResult = Except.ok tcpHandshakeResponsePacketLength)) := by
  refine ⟨?_, ?_, ?_, ?_, ?_⟩
  · intro node w v r; rfl
  · intro crypto node w v r
    unfold getNodes
    cases hexDecode node.PublicKey <;> rfl
  · intro crypto node w v r p
    unfold tryTCPHandshake
    cases hexDecode node.PublicKey <;> rfl
  · intro crypto node conn
    unfold getNodes
    cases hd : hexDecode node.PublicKey with
    | none => simp
    | some pk =>
      cases hr : conn.readResult with
      | error e => simp
      | ok b => simp [hr]
  · intro crypto node conn p
    unfold tryTCPHandshake
    cases hd : hexDecode node.PublicKey with
    | none => simp
    | some pk =>
      cases hr : conn.readResult with
      | error e => simp [hr]
      | ok read =>
        by_cases hread : read = tcpHandshakeResponsePacketLength
        · simp [hr, hread]
        · simp [hr, hread]
